import Mathlib

/-!
Verification of the BlockHead site-lifecycle engine: a shallow embedding of
the Express server's core functions (config rendering, process supervision,
reachability probing, the site-creation orchestrator, and per-endpoint
domain validation), with theorems checking the specification's claims.

String literals reproduce the server's nginx templates byte for byte; the
characters written \x7b and \x7d are the literal brace characters.
-/

set_option maxRecDepth 100000

namespace BlockHead

/-! ## String preliminaries -/

theorem data_app (s t : String) : (s ++ t).data = s.data ++ t.data := by
  cases s; cases t; rfl

theorem str_eq_of_data (s t : String) (h : s.data = t.data) : s = t := by
  cases s; cases t; exact congrArg String.mk h

/-- Join a list of lines with newline separators (no trailing newline). -/
def joinLines : List String → String
  | [] => ""
  | [l] => l
  | l :: ls => l ++ "\n" ++ joinLines ls

/-! ## Data model

`Site` mirrors the JSON records in sites.json: `\x7b domain, repo, root \x7d`
plus the optional `port` (stored via `if (port) site.port = Number(port)`)
and the optional custom start command `cmd`. -/

structure Site where
  domain : String
  repo : String
  root : String
  port : Option Nat
  cmd : Option String
deriving DecidableEq, Repr

/-- JavaScript truthiness of the optional numeric `port` field
(`if (site.port)`): absent or zero is falsy. -/
def optNatTruthy : Option Nat → Bool
  | none => false
  | some n => n != 0

/-- JavaScript truthiness of an optional string field (`if (cmd)`):
absent or empty is falsy. -/
def optStrTruthy : Option String → Bool
  | none => false
  | some c => c != ""

/-- `isValidDomain` from the server: `/^[A-Za-z0-9.-]+$/.test(domain)`. -/
def isDomainChar (c : Char) : Bool :=
  c.isAlpha || c.isDigit || c == '.' || c == '-'

/-- A domain is valid when it is nonempty and every character lies in
`[A-Za-z0-9.-]`. -/
def isValidDomain (domain : String) : Bool :=
  !domain.data.isEmpty && domain.data.all isDomainChar

/-! ## ConfigRenderer

`generateNginxConfig(site)` from the server. The filesystem probe
`fs.existsSync(certPath) && fs.existsSync(keyPath)` is abstracted into the
boolean `hasSsl` (see `generateNginxConfigFS` for the two-file gate). -/

/-- `SSL_DIR = path.join(__dirname, 'ssl')`; the directory prefix itself is
opaque to the renderer, only its joining with the domain matters. -/
def SSL_DIR : String := "ssl"

/-- `path.join(SSL_DIR, domain + '.crt')`. -/
def certPathFor (domain : String) : String := SSL_DIR ++ "/" ++ domain ++ ".crt"

/-- `path.join(SSL_DIR, domain + '.key')`. -/
def keyPathFor (domain : String) : String := SSL_DIR ++ "/" ++ domain ++ ".key"

/-- The config text built by `generateNginxConfig`, one branch per
(port truthy?, ssl material present?) combination, byte for byte. -/
def generateNginxConfig (site : Site) (hasSsl : Bool) : String :=
  let certPath := certPathFor site.domain
  let keyPath := keyPathFor site.domain
  if optNatTruthy site.port then
    let p := site.port.getD 0
    if hasSsl then
      "server \x7b\n  listen 80;\n  server_name " ++ site.domain ++
        ";\n  return 301 https://$host$request_uri;\n\x7d\nserver \x7b\n  listen 443 ssl;\n  server_name " ++
        site.domain ++ ";\n  ssl_certificate " ++ certPath ++
        ";\n  ssl_certificate_key " ++ keyPath ++
        ";\n  location / \x7b\n    proxy_pass http://127.0.0.1:" ++ toString p ++
        ";\n    proxy_set_header Host $host;\n    proxy_set_header X-Real-IP $remote_addr;\n  \x7d\n\x7d"
    else
      "server \x7b\n  listen 80;\n  server_name " ++ site.domain ++
        ";\n  location / \x7b\n    proxy_pass http://127.0.0.1:" ++ toString p ++
        ";\n    proxy_set_header Host $host;\n    proxy_set_header X-Real-IP $remote_addr;\n  \x7d\n\x7d"
  else
    if hasSsl then
      "server \x7b\n  listen 80;\n  server_name " ++ site.domain ++
        ";\n  return 301 https://$host$request_uri;\n\x7d\nserver \x7b\n  listen 443 ssl;\n  server_name " ++
        site.domain ++ ";\n  ssl_certificate " ++ certPath ++
        ";\n  ssl_certificate_key " ++ keyPath ++
        ";\n  root " ++ site.root ++
        ";\n  index index.html index.htm;\n  location / \x7b\n    try_files $uri $uri/ =404;\n  \x7d\n\x7d"
    else
      "server \x7b\n  listen 80;\n  server_name " ++ site.domain ++
        ";\n  root " ++ site.root ++
        ";\n  index index.html index.htm;\n  location / \x7b\n    try_files $uri $uri/ =404;\n  \x7d\n\x7d"

/-- The renderer as run by the server: ssl material counts as present only
when the certificate and the key file both exist
(`fs.existsSync(certPath) && fs.existsSync(keyPath)`). -/
def generateNginxConfigFS (site : Site) (certExists keyExists : Bool) : String :=
  generateNginxConfig site (certExists && keyExists)

/-- The same config text, line by line (the template's lines split at the
newlines), used to reason about which rules the rendered text contains. -/
def configLines (site : Site) (hasSsl : Bool) : List String :=
  let certPath := certPathFor site.domain
  let keyPath := keyPathFor site.domain
  if optNatTruthy site.port then
    let p := site.port.getD 0
    if hasSsl then
      ["server \x7b", "  listen 80;",
       "  server_name " ++ site.domain ++ ";",
       "  return 301 https://$host$request_uri;", "\x7d",
       "server \x7b", "  listen 443 ssl;",
       "  server_name " ++ site.domain ++ ";",
       "  ssl_certificate " ++ certPath ++ ";",
       "  ssl_certificate_key " ++ keyPath ++ ";",
       "  location / \x7b",
       "    proxy_pass http://127.0.0.1:" ++ toString p ++ ";",
       "    proxy_set_header Host $host;",
       "    proxy_set_header X-Real-IP $remote_addr;",
       "  \x7d", "\x7d"]
    else
      ["server \x7b", "  listen 80;",
       "  server_name " ++ site.domain ++ ";",
       "  location / \x7b",
       "    proxy_pass http://127.0.0.1:" ++ toString p ++ ";",
       "    proxy_set_header Host $host;",
       "    proxy_set_header X-Real-IP $remote_addr;",
       "  \x7d", "\x7d"]
  else
    if hasSsl then
      ["server \x7b", "  listen 80;",
       "  server_name " ++ site.domain ++ ";",
       "  return 301 https://$host$request_uri;", "\x7d",
       "server \x7b", "  listen 443 ssl;",
       "  server_name " ++ site.domain ++ ";",
       "  ssl_certificate " ++ certPath ++ ";",
       "  ssl_certificate_key " ++ keyPath ++ ";",
       "  root " ++ site.root ++ ";",
       "  index index.html index.htm;",
       "  location / \x7b",
       "    try_files $uri $uri/ =404;",
       "  \x7d", "\x7d"]
    else
      ["server \x7b", "  listen 80;",
       "  server_name " ++ site.domain ++ ";",
       "  root " ++ site.root ++ ";",
       "  index index.html index.htm;",
       "  location / \x7b",
       "    try_files $uri $uri/ =404;",
       "  \x7d", "\x7d"]

/-- Number of `server \x7b` block openers in the rendered lines. -/
def countServerOpen (lines : List String) : Nat :=
  (lines.filter (fun l => l == "server \x7b")).length

/-- The template string and its line decomposition agree for every input. -/
theorem generateNginxConfig_eq_joinLines (site : Site) (hasSsl : Bool) :
    generateNginxConfig site hasSsl = joinLines (configLines site hasSsl) := by
  obtain ⟨d, repo, root, port, cmd⟩ := site
  cases port with
  | none =>
    cases hasSsl <;>
      (apply str_eq_of_data;
       simp [generateNginxConfig, configLines, optNatTruthy, joinLines, data_app,
             List.append_assoc])
  | some p =>
    by_cases hp : p = 0
    · subst hp
      cases hasSsl <;>
        (apply str_eq_of_data;
         simp [generateNginxConfig, configLines, optNatTruthy, joinLines, data_app,
               List.append_assoc])
    · cases hasSsl <;>
        (apply str_eq_of_data;
         simp [generateNginxConfig, configLines, optNatTruthy, hp, joinLines, data_app,
               List.append_assoc])

/-! ## ProcessSupervisor

The server tracks children in the global object `runningProcs` keyed by
domain. Spawned children are modelled by fresh numeric pids; `signaled`
records every pid whose process group received a `process.kill(-pid)`
attempt (delivery may still fail, in which case the error is only logged). -/

structure SupState where
  table : List (String × Nat)
  nextPid : Nat
  signaled : List Nat
  logs : List String
deriving DecidableEq, Repr

def initSup : SupState := ⟨[], 0, [], []⟩

/-- `runningProcs[domain]` lookup. -/
def lookupProc (domain : String) (t : List (String × Nat)) : Option Nat :=
  (t.find? (fun e => e.1 == domain)).map (fun e => e.2)

/-- `delete runningProcs[domain]`. -/
def eraseProc (domain : String) (t : List (String × Nat)) : List (String × Nat) :=
  t.filter (fun e => !(e.1 == domain))

/-- `runningProcs[domain] = child`: object assignment, one entry per key. -/
def setProc (domain : String) (pid : Nat) (t : List (String × Nat)) :
    List (String × Nat) :=
  (domain, pid) :: eraseProc domain t

/-- `startApp(domain, cwd, port)`: spawn `npm start` detached and record the
child under the domain. It does not consult or stop any process already
tracked for the domain — the table entry is simply overwritten. -/
def startApp (domain : String) (s : SupState) : SupState :=
  let child := s.nextPid
  { s with
    table := setProc domain child s.table
    nextPid := child + 1
    logs := ("Started npm app for " ++ domain) :: s.logs }

/-- `stopSiteCommand(domain)`: when an entry exists, `process.kill(-pid)` is
attempted inside try/catch (`killOk` tells whether delivery succeeded; a
failure is only logged) and the entry is deleted afterwards in either case.
Without an entry the call does nothing. -/
def stopSiteCommand (domain : String) (killOk : Bool) (s : SupState) : SupState :=
  match lookupProc domain s.table with
  | some pid =>
    { s with
      signaled := pid :: s.signaled
      logs := (if killOk then "Stopped command for " ++ domain
               else "Failed to stop process") :: s.logs
      table := eraseProc domain s.table }
  | none => s

/-- `runSiteCommand(domain, cmd, cwd, port)`: stop the tracked process first
when one exists, then spawn the shell command detached and record it. -/
def runSiteCommand (domain cmd : String) (killOk : Bool) (s : SupState) : SupState :=
  let s1 := if (lookupProc domain s.table).isSome
            then stopSiteCommand domain killOk s else s
  let child := s1.nextPid
  { s1 with
    table := setProc domain child s1.table
    nextPid := child + 1
    logs := ("Started " ++ cmd ++ " for " ++ domain) :: s1.logs }

/-- The two start strategies the orchestrator dispatches to: `std` is
`startApp` (npm start), `custom cmd killOk` is `runSiteCommand`. -/
inductive StartOp
| std
| custom (cmd : String) (killOk : Bool)
deriving DecidableEq, Repr

def applyStart (domain : String) (op : StartOp) (s : SupState) : SupState :=
  match op with
  | .std => startApp domain s
  | .custom cmd killOk => runSiteCommand domain cmd killOk s

/-- Run a sequence of start operations for one domain from a state. -/
def runStartSeq (domain : String) (ops : List StartOp) (s : SupState) : SupState :=
  ops.foldl (fun acc op => applyStart domain op acc) s

/-- State after the first `i` operations, starting from the empty table. -/
def runStartPrefix (domain : String) (ops : List StartOp) (i : Nat) : SupState :=
  runStartSeq domain (ops.take i) initSup

/-- Number of entries tracked for a domain. -/
def countKey (domain : String) (t : List (String × Nat)) : Nat :=
  (t.filter (fun e => e.1 == domain)).length

/-- Step `i` respected the stop-before-replace discipline: the pid tracked
before the step either survived it or was signaled by the time the step
finished. -/
def stepStopOk (domain : String) (ops : List StartOp) (i : Nat) : Bool :=
  match lookupProc domain (runStartPrefix domain ops i).table with
  | some p =>
    (lookupProc domain (runStartPrefix domain ops (i + 1)).table == some p) ||
      ((runStartPrefix domain ops (i + 1)).signaled.contains p)
  | none => true

/-- The supervisor invariant exactly as the specification claims it for an
arbitrary start sequence: afterwards exactly one process is tracked for the
domain, and every superseded process was signaled before being replaced. -/
def startSeqClaim (domain : String) (ops : List StartOp) : Bool :=
  (countKey domain (runStartSeq domain ops initSup).table == 1) &&
    (List.range ops.length).all (fun i => stepStopOk domain ops i)

/-! ## ReachabilityProbe

`checkSiteStatus(site)`: the filesystem checks are the booleans
`rootExists` / `configExists`; the outcome of the 3-second-bounded HTTP GET
is a `NetOutcome`. -/

inductive NetOutcome
| connError
| timeout
| response (status : Nat)
deriving DecidableEq, Repr

/-- The `\x7b level, message \x7d` verdict object. -/
structure SiteStatus where
  level : String
  message : String
deriving DecidableEq, Repr

/-- `checkSiteStatus` — total: every branch resolves to a verdict. -/
def checkSiteStatus (rootExists configExists : Bool) (net : NetOutcome) :
    SiteStatus :=
  if !rootExists || !configExists then
    ⟨"error", "Missing files or config"⟩
  else
    match net with
    | .response status =>
      if status < 400 then ⟨"ok", "Site reachable"⟩
      else ⟨"warning", "HTTP " ++ toString status⟩
    | .connError => ⟨"warning", "Request failed"⟩
    | .timeout => ⟨"warning", "Timeout"⟩

/-! ## LifecycleOrchestrator: the `/new` (Create) handler

`app.post('/new')` modelled over an abstract environment describing the
outcomes of the external calls (filesystem probes, git clone, dependency
installs, enable script). Every mutation the handler performs is recorded
in chronological order in the `acts` trace, and the committed artifacts
(persisted site list, rendered config, started process) are returned. -/

inductive StartKind
| customK (cmd : String)
| stdK
| pyK (entry : String)
deriving DecidableEq, Repr

inductive Act
| mkdirParentA
| rmRootA
| cloneA
| npmInstallA
| pipInstallA
| startA (k : StartKind)
| saveSitesA
| writeConfigA
| enableA
deriving DecidableEq, Repr

inductive NewResp
| invalidDomain
| duplicateDomain
| permissionError
| accessFailed
| destNotEmpty
| cloneFailed
| enableFailed (msg : String)
| created
deriving DecidableEq, Repr

structure NewResult where
  resp : NewResp
  acts : List Act
  savedSites : Option (List Site)
  writtenConfig : Option Site
  started : Option StartKind
deriving DecidableEq, Repr

structure NewReq where
  domain : String
  repo : String
  root : String
  port : Option Nat
  cmd : Option String
  overwrite : Bool
deriving DecidableEq, Repr

structure NewEnv where
  sites : List Site
  parentExists : Bool
  parentWritable : Bool
  mkdirOk : Bool
  rootExists : Bool
  rootReadOk : Bool
  rootNonEmpty : Bool
  cloneOk : Bool
  hasPkgJson : Bool
  hasRequirements : Bool
  pyEntry : Option String
  enableOk : Bool
  enableErrMsg : String
deriving DecidableEq, Repr

/-- `const site = \x7b domain, repo, root \x7d; if (port) site.port = ...;
if (cmd) site.cmd = cmd;` -/
def mkSite (req : NewReq) : Site :=
  ⟨req.domain, req.repo, req.root,
   if optNatTruthy req.port then req.port else none,
   if optStrTruthy req.cmd then req.cmd else none⟩

/-- Start strategy chosen at Create step 7: custom command first, else
`npm start` when package.json exists, else a detected Python entry point. -/
def newStartKind (req : NewReq) (env : NewEnv) : Option StartKind :=
  if optStrTruthy req.cmd then some (.customK (req.cmd.getD ""))
  else if env.hasPkgJson then some .stdK
  else if env.hasRequirements then
    match env.pyEntry with
    | some entry => some (.pyK entry)
    | none => none
  else none

/-- The remediation hint sent with a failed enable:
`Run \x60sudo ./scripts/enable_site.sh $\x7bdomain\x7d\x60 manually`. -/
def enableHint (domain : String) : String :=
  "Run \x60sudo ./scripts/enable_site.sh " ++ domain ++ "\x60 manually"

/-- The handler from the clone step on (after validation and the
destination checks), with `acts1` the mutations already performed. -/
def newAfterDest (req : NewReq) (env : NewEnv) (acts1 : List Act) : NewResult :=
  if !env.cloneOk then
    ⟨.cloneFailed, acts1 ++ [.cloneA], none, none, none⟩
  else
    let acts2 := acts1 ++ [.cloneA] ++
      (if env.hasPkgJson then [.npmInstallA] else []) ++
      (if env.hasRequirements then [.pipInstallA] else [])
    let startK := newStartKind req env
    let acts3 := acts2 ++ (match startK with
      | some k => [.startA k]
      | none => [])
    let newSites := env.sites ++ [mkSite req]
    let acts4 := acts3 ++ [.saveSitesA, .writeConfigA, .enableA]
    if env.enableOk then
      ⟨.created, acts4, some newSites, some (mkSite req), startK⟩
    else
      ⟨.enableFailed ("Failed to enable site: " ++ env.enableErrMsg ++ ". " ++
          enableHint req.domain),
       acts4, some newSites, some (mkSite req), startK⟩

/-- `app.post('/new')`: validation, duplicate check, parent-directory
check (with the mkdir fallback), destination-not-empty check, then clone
and the committed steps. -/
def newHandler (req : NewReq) (env : NewEnv) : NewResult :=
  if !isValidDomain req.domain then
    ⟨.invalidDomain, [], none, none, none⟩
  else if (env.sites.find? (fun s => s.domain == req.domain)).isSome then
    ⟨.duplicateDomain, [], none, none, none⟩
  else
    let parentActs : Option (List Act) :=
      if env.parentExists then
        if env.parentWritable then some []
        else none
      else
        if env.mkdirOk then some [.mkdirParentA] else none
    match parentActs with
    | none => ⟨.permissionError, [], none, none, none⟩
    | some acts0 =>
      if env.rootExists then
        if !env.rootReadOk then ⟨.accessFailed, acts0, none, none, none⟩
        else if env.rootNonEmpty then
          if req.overwrite then newAfterDest req env (acts0 ++ [.rmRootA])
          else ⟨.destNotEmpty, acts0, none, none, none⟩
        else newAfterDest req env acts0
      else newAfterDest req env acts0

/-! ## Per-endpoint domain validation

Each handler that accepts a domain is modelled down to its validation
structure; the work performed after a successful validation is summarised
as the trace of filesystem paths built from the domain, shell commands
embedding the domain, and supervisor calls keyed by the domain. -/

inductive DomAct
| fsPath (p : String)
| shellCmd (c : String)
| procStart (d : String)
| procStop (d : String)
| storeWrite
deriving DecidableEq, Repr

inductive HResp
| invalidDomain
| notFound
| redirect
| okResp
deriving DecidableEq, Repr

/-- `app.post('/update')`. -/
def updateHandler (domain : String) (sites : List Site) : HResp × List DomAct :=
  if !isValidDomain domain then (.invalidDomain, [])
  else
    match sites.find? (fun s => s.domain == domain) with
    | none => (.notFound, [])
    | some site => (.redirect, [.fsPath site.root, .procStart domain])

/-- `app.post('/delete')`. -/
def deleteHandler (domain : String) (sites : List Site) : HResp × List DomAct :=
  if !isValidDomain domain then (.invalidDomain, [])
  else (.redirect, [.storeWrite])

/-- `app.post('/backup')`. -/
def backupHandler (domain : String) (sites : List Site) : HResp × List DomAct :=
  if !isValidDomain domain then (.invalidDomain, [])
  else
    match sites.find? (fun s => s.domain == domain) with
    | none => (.notFound, [])
    | some site =>
      (.okResp, [.fsPath site.root, .fsPath ("generated_configs/" ++ domain)])

/-- `app.post('/run')`. -/
def runHandler (domain cmd : String) (sites : List Site) : HResp × List DomAct :=
  if domain == "" || cmd == "" then (.redirect, [])
  else if !isValidDomain domain then (.invalidDomain, [])
  else
    match sites.find? (fun s => s.domain == domain) with
    | none => (.redirect, [])
    | some site => (.redirect, [.procStart domain])

/-- `app.post('/stop')`. -/
def stopHandler (domain : String) : HResp × List DomAct :=
  if domain != "" && !isValidDomain domain then (.invalidDomain, [])
  else if domain != "" then (.redirect, [.procStop domain])
  else (.redirect, [])

/-- `app.post('/fix')`. -/
def fixHandler (domain : String) : HResp × List DomAct :=
  if domain == "" then (.redirect, [])
  else if !isValidDomain domain then (.invalidDomain, [])
  else (.redirect, [.shellCmd ("bash scripts/fix_site.sh " ++ domain)])

/-- `app.get('/nginx')` with an explicitly supplied `site` query value. -/
def nginxGetHandler (domain : String) : HResp × List DomAct :=
  if domain != "" && !isValidDomain domain then (.invalidDomain, [])
  else (.okResp, [])

/-- `app.post('/nginx')`. -/
def nginxPostHandler (domain : String) (sites : List Site) : HResp × List DomAct :=
  if !isValidDomain domain then (.invalidDomain, [])
  else
    match sites.find? (fun s => s.domain == domain) with
    | none => (.redirect, [])
    | some site =>
      (.redirect, [.storeWrite, .fsPath ("generated_configs/" ++ domain),
                   .shellCmd ("sudo bash scripts/enable_site.sh " ++ domain)])

/-- `app.get('/ssl/:domain')`. -/
def sslGetHandler (domain : String) : HResp × List DomAct :=
  if !isValidDomain domain then (.invalidDomain, [])
  else (.okResp, [])

/-- `app.post('/ssl/:domain')` (certificate material elided; only the
domain-derived file writes and commands are traced). -/
def sslPostHandler (domain : String) : HResp × List DomAct :=
  if !isValidDomain domain then (.invalidDomain, [])
  else
    (.redirect, [.fsPath ("ssl/" ++ domain ++ ".crt"),
                 .fsPath ("ssl/" ++ domain ++ ".key"),
                 .fsPath ("generated_configs/" ++ domain),
                 .shellCmd ("sudo bash scripts/enable_site.sh " ++ domain),
                 .shellCmd ("openssl s_client -servername " ++ domain ++
                   " -connect " ++ domain ++ ":443 < /dev/null")])

/-- `app.get('/ssl/:domain/test')`. -/
def sslTestHandler (domain : String) : HResp × List DomAct :=
  if !isValidDomain domain then (.invalidDomain, [])
  else
    (.okResp, [.shellCmd ("openssl s_client -servername " ++ domain ++
      " -connect " ++ domain ++ ":443 < /dev/null")])

/-- `app.get('/config/:domain')`. -/
def configGetHandler (domain : String) : HResp × List DomAct :=
  if !isValidDomain domain then (.invalidDomain, [])
  else (.okResp, [.fsPath ("generated_configs/" ++ domain)])

/-- `app.get('/test/:domain')` (the probe request itself builds no
filesystem path and runs no shell command). -/
def testGetHandler (domain : String) : HResp × List DomAct :=
  if !isValidDomain domain then (.invalidDomain, [])
  else (.okResp, [])

/-! ## Claim theorems -/

/-! Helper disequalities: no line carrying an interpolated value is a
`server \x7b` block opener (each such line begins with spaces). -/

theorem server_name_ne_open (d : String) :
    (("  server_name " ++ d ++ ";") == "server \x7b") = false := by
  simp only [beq_eq_false_iff_ne, ne_eq]
  intro h
  have h2 := congrArg String.data h
  simp [data_app] at h2

theorem ssl_cert_ne_open (c : String) :
    (("  ssl_certificate " ++ c ++ ";") == "server \x7b") = false := by
  simp only [beq_eq_false_iff_ne, ne_eq]
  intro h
  have h2 := congrArg String.data h
  simp [data_app] at h2

theorem ssl_key_ne_open (c : String) :
    (("  ssl_certificate_key " ++ c ++ ";") == "server \x7b") = false := by
  simp only [beq_eq_false_iff_ne, ne_eq]
  intro h
  have h2 := congrArg String.data h
  simp [data_app] at h2

theorem proxy_pass_ne_open (p : Nat) :
    (("    proxy_pass http://127.0.0.1:" ++ toString p ++ ";") ==
      "server \x7b") = false := by
  simp only [beq_eq_false_iff_ne, ne_eq]
  intro h
  have h2 := congrArg String.data h
  simp [data_app] at h2

theorem root_line_ne_open (r : String) :
    (("  root " ++ r ++ ";") == "server \x7b") = false := by
  simp only [beq_eq_false_iff_ne, ne_eq]
  intro h
  have h2 := congrArg String.data h
  simp [data_app] at h2

/-- C3: a site with a (positive) port renders a reverse-proxy rule to
`127.0.0.1:port` with Host and client-address headers and no static root
rule; a site without a port renders the static root with index resolution
and the 404 fallback and no proxy rule — never both. -/
theorem render_proxy_static_exclusive (site : Site) (tls : Bool) :
    (∀ p, site.port = some p → 0 < p →
      (("    proxy_pass http://127.0.0.1:" ++ toString p ++ ";") ∈
         configLines site tls ∧
       "    proxy_set_header Host $host;" ∈ configLines site tls ∧
       "    proxy_set_header X-Real-IP $remote_addr;" ∈ configLines site tls ∧
       ∀ l ∈ configLines site tls, ¬ ("  root ".data <+: l.data))) ∧
    (site.port = none →
      (("  root " ++ site.root ++ ";") ∈ configLines site tls ∧
       "  index index.html index.htm;" ∈ configLines site tls ∧
       "    try_files $uri $uri/ =404;" ∈ configLines site tls ∧
       ∀ l ∈ configLines site tls, ¬ ("    proxy_pass".data <+: l.data))) ∧
    generateNginxConfig site tls = joinLines (configLines site tls) := by
  obtain ⟨d, repo, root, port, cmd⟩ := site
  refine ⟨?_, ?_, generateNginxConfig_eq_joinLines _ _⟩
  · rintro p rfl hp
    have hpt : optNatTruthy (some p) = true := by
      simp [optNatTruthy]
      omega
    cases tls
    · refine ⟨?_, ?_, ?_, ?_⟩
      · simp [configLines, hpt]
      · simp [configLines, hpt]
      · simp [configLines, hpt]
      · intro l hl
        simp [configLines, hpt] at hl
        rcases hl with rfl | rfl | rfl | rfl | rfl | rfl | rfl | rfl | rfl <;>
          (rintro ⟨t, ht⟩; simp [data_app] at ht)
    · refine ⟨?_, ?_, ?_, ?_⟩
      · simp [configLines, hpt]
      · simp [configLines, hpt]
      · simp [configLines, hpt]
      · intro l hl
        simp [configLines, hpt] at hl
        rcases hl with
          rfl | rfl | rfl | rfl | rfl | rfl | rfl | rfl |
          rfl | rfl | rfl | rfl | rfl | rfl | rfl | rfl <;>
          (rintro ⟨t, ht⟩; simp [data_app] at ht)
  · rintro rfl
    cases tls
    · refine ⟨?_, ?_, ?_, ?_⟩
      · simp [configLines, optNatTruthy]
      · simp [configLines, optNatTruthy]
      · simp [configLines, optNatTruthy]
      · intro l hl
        simp [configLines, optNatTruthy] at hl
        rcases hl with rfl | rfl | rfl | rfl | rfl | rfl | rfl | rfl | rfl <;>
          (rintro ⟨t, ht⟩; simp [data_app] at ht)
    · refine ⟨?_, ?_, ?_, ?_⟩
      · simp [configLines, optNatTruthy]
      · simp [configLines, optNatTruthy]
      · simp [configLines, optNatTruthy]
      · intro l hl
        simp [configLines, optNatTruthy] at hl
        rcases hl with
          rfl | rfl | rfl | rfl | rfl | rfl | rfl | rfl |
          rfl | rfl | rfl | rfl | rfl | rfl | rfl | rfl <;>
          (rintro ⟨t, ht⟩; simp [data_app] at ht)

/-- Witness for C3 at concrete sites: the proxy rule of a ported site and
the static root rule of an unported site. -/
theorem render_proxy_static_exclusive_witness :
    ("    proxy_pass http://127.0.0.1:" ++ toString 3001 ++ ";") ∈
      configLines ⟨"a.test", "repo", "/var/www/a", some 3001, none⟩ false ∧
    ("  root " ++ "/var/www/b" ++ ";") ∈
      configLines ⟨"b.test", "repo", "/var/www/b", none, none⟩ false := by
  constructor
  · exact (((render_proxy_static_exclusive
      ⟨"a.test", "repo", "/var/www/a", some 3001, none⟩ false).1)
        3001 rfl (by decide)).1
  · exact (((render_proxy_static_exclusive
      ⟨"b.test", "repo", "/var/www/b", none, none⟩ false).2.1) rfl).1

/-- C2: the config renderer is a deterministic pure function of
`(domain, root, port, tlsMaterialPresent)`: two site records agreeing on
those fields (regardless of the other fields) render identically, and
rendering the same record twice is byte-identical. -/
theorem render_deterministic :
    ∀ (d repoA repoB root : String) (port : Option Nat)
      (cmdA cmdB : Option String) (tls : Bool),
      generateNginxConfig ⟨d, repoA, root, port, cmdA⟩ tls =
        generateNginxConfig ⟨d, repoB, root, port, cmdB⟩ tls ∧
      generateNginxConfig ⟨d, repoA, root, port, cmdA⟩ tls =
        generateNginxConfig ⟨d, repoA, root, port, cmdA⟩ tls := by
  intro d repoA repoB root port cmdA cmdB tls
  exact ⟨rfl, rfl⟩

/-- C4: with ssl material present the rendered lines form exactly two
server blocks — a port-80 listener that redirects to https plus a
`443 ssl` listener carrying the certificate/key paths derived from the
domain and the proxy or static rules; with material absent only the single
plaintext block is rendered (no redirect, no 443 listener, no certificate
references). -/
theorem render_tls_two_blocks (site : Site) :
    countServerOpen (configLines site true) = 2 ∧
    "  listen 80;" ∈ configLines site true ∧
    "  return 301 https://$host$request_uri;" ∈ configLines site true ∧
    "  listen 443 ssl;" ∈ configLines site true ∧
    ("  ssl_certificate " ++ certPathFor site.domain ++ ";") ∈
      configLines site true ∧
    ("  ssl_certificate_key " ++ keyPathFor site.domain ++ ";") ∈
      configLines site true ∧
    (∀ p, site.port = some p → 0 < p →
      ("    proxy_pass http://127.0.0.1:" ++ toString p ++ ";") ∈
        configLines site true) ∧
    (site.port = none →
      ("  root " ++ site.root ++ ";") ∈ configLines site true) ∧
    countServerOpen (configLines site false) = 1 ∧
    "  listen 80;" ∈ configLines site false ∧
    (∀ l ∈ configLines site false,
      ¬ ("  return".data <+: l.data) ∧
      ¬ ("  listen 443".data <+: l.data) ∧
      ¬ ("  ssl_certificate".data <+: l.data)) ∧
    generateNginxConfig site true = joinLines (configLines site true) ∧
    generateNginxConfig site false = joinLines (configLines site false) := by
  obtain ⟨d, repo, root, port, cmd⟩ := site
  have hcases : optNatTruthy port = true ∨ optNatTruthy port = false := by
    cases optNatTruthy port
    · exact Or.inr rfl
    · exact Or.inl rfl
  refine ⟨?_, ?_, ?_, ?_, ?_, ?_, ?_, ?_, ?_, ?_, ?_,
    generateNginxConfig_eq_joinLines _ _, generateNginxConfig_eq_joinLines _ _⟩
  · rcases hcases with hpt | hpt <;>
      simp [countServerOpen, configLines, hpt, List.filter,
        server_name_ne_open, ssl_cert_ne_open, ssl_key_ne_open,
        proxy_pass_ne_open, root_line_ne_open]
  · rcases hcases with hpt | hpt <;> simp [configLines, hpt]
  · rcases hcases with hpt | hpt <;> simp [configLines, hpt]
  · rcases hcases with hpt | hpt <;> simp [configLines, hpt]
  · rcases hcases with hpt | hpt <;> simp [configLines, hpt]
  · rcases hcases with hpt | hpt <;> simp [configLines, hpt]
  · rintro p rfl hp
    have hpt : optNatTruthy (some p) = true := by
      simp [optNatTruthy]
      omega
    simp [configLines, hpt]
  · rintro rfl
    simp [configLines, optNatTruthy]
  · rcases hcases with hpt | hpt <;>
      simp [countServerOpen, configLines, hpt, List.filter,
        server_name_ne_open, ssl_cert_ne_open, ssl_key_ne_open,
        proxy_pass_ne_open, root_line_ne_open]
  · rcases hcases with hpt | hpt <;> simp [configLines, hpt]
  · intro l hl
    rcases hcases with hpt | hpt <;> simp [configLines, hpt] at hl
    · rcases hl with rfl | rfl | rfl | rfl | rfl | rfl | rfl | rfl | rfl <;>
        refine ⟨?_, ?_, ?_⟩ <;> (rintro ⟨t, ht⟩; simp [data_app] at ht)
    · rcases hl with rfl | rfl | rfl | rfl | rfl | rfl | rfl | rfl | rfl <;>
        refine ⟨?_, ?_, ?_⟩ <;> (rintro ⟨t, ht⟩; simp [data_app] at ht)

/-- Witness for C4 at a concrete ported site. -/
theorem render_tls_two_blocks_witness :
    countServerOpen
      (configLines ⟨"a.test", "repo", "/var/www/a", some 3001, none⟩ true) = 2 ∧
    ("    proxy_pass http://127.0.0.1:" ++ toString 3001 ++ ";") ∈
      configLines ⟨"a.test", "repo", "/var/www/a", some 3001, none⟩ true := by
  constructor
  · exact (render_tls_two_blocks
      ⟨"a.test", "repo", "/var/www/a", some 3001, none⟩).1
  · exact ((render_tls_two_blocks
      ⟨"a.test", "repo", "/var/www/a", some 3001, none⟩).2.2.2.2.2.2.1)
        3001 rfl (by decide)

/-- C5: the probe always yields one of the three verdict levels, with the
specified reason mapping, and (being a total function of the filesystem
and network outcome) never propagates an exception. -/
theorem probe_total_verdicts :
    ∀ (rootExists configExists : Bool) (net : NetOutcome) (status : Nat),
      (checkSiteStatus rootExists configExists net).level ∈
        (["ok", "warning", "error"] : List String) ∧
      checkSiteStatus false configExists net =
        ⟨"error", "Missing files or config"⟩ ∧
      checkSiteStatus rootExists false net =
        ⟨"error", "Missing files or config"⟩ ∧
      checkSiteStatus true true .connError = ⟨"warning", "Request failed"⟩ ∧
      checkSiteStatus true true .timeout = ⟨"warning", "Timeout"⟩ ∧
      checkSiteStatus true true (.response status) =
        (if status < 400 then ⟨"ok", "Site reachable"⟩
         else ⟨"warning", "HTTP " ++ toString status⟩) := by
  intro rootExists configExists net status
  refine ⟨?_, ?_, ?_, rfl, rfl, rfl⟩
  · cases rootExists <;> cases configExists <;> cases net <;>
      simp [checkSiteStatus] <;> split <;> simp
  · cases configExists <;> rfl
  · cases rootExists <;> rfl

/-! Supervisor lemmas. -/

theorem countKey_eraseProc (d : String) (t : List (String × Nat)) :
    countKey d (eraseProc d t) = 0 := by
  induction t with
  | nil => rfl
  | cons a t ih =>
    cases hb : (a.1 == d) <;>
      simp only [countKey, eraseProc, List.filter_cons, hb, Bool.not_true,
        Bool.not_false, if_true, if_false] <;>
      simpa [countKey, eraseProc] using ih

theorem lookupProc_eraseProc (d : String) (t : List (String × Nat)) :
    lookupProc d (eraseProc d t) = none := by
  induction t with
  | nil => rfl
  | cons a t ih =>
    cases hb : (a.1 == d) <;>
      simp only [lookupProc, eraseProc, List.filter_cons, List.find?_cons, hb,
        Bool.not_true, Bool.not_false, if_true, if_false] <;>
      simpa [lookupProc, eraseProc] using ih

theorem countKey_setProc_self (d : String) (pid : Nat)
    (t : List (String × Nat)) : countKey d (setProc d pid t) = 1 := by
  have h0 := countKey_eraseProc d t
  simp [countKey, setProc, List.filter_cons] at h0 ⊢
  exact h0

theorem applyStart_countKey (d : String) (op : StartOp) (s : SupState) :
    countKey d (applyStart d op s).table = 1 := by
  cases op <;>
    simp [applyStart, startApp, runSiteCommand, countKey_setProc_self]

theorem runStartSeq_cons (d : String) (op : StartOp) (ops : List StartOp)
    (s : SupState) :
    runStartSeq d (op :: ops) s = runStartSeq d ops (applyStart d op s) := rfl

theorem runStartSeq_concat (d : String) (ops : List StartOp) (op : StartOp)
    (s : SupState) :
    runStartSeq d (ops ++ [op]) s = applyStart d op (runStartSeq d ops s) := by
  simp [runStartSeq, List.foldl_append]

theorem countKey_runStartSeq_le (d : String) (ops : List StartOp)
    (s : SupState) (h : countKey d s.table ≤ 1) :
    countKey d (runStartSeq d ops s).table ≤ 1 := by
  induction ops generalizing s with
  | nil => exact h
  | cons op ops ih =>
    rw [runStartSeq_cons]
    exact ih _ (le_of_eq (applyStart_countKey d op s))

theorem runStartPrefix_succ_of_get (d : String) (ops : List StartOp) (i : Nat)
    (op : StartOp) (h : ops[i]? = some op) :
    runStartPrefix d ops (i + 1) = applyStart d op (runStartPrefix d ops i) := by
  unfold runStartPrefix
  rw [List.take_succ, h]
  simp [runStartSeq, List.foldl_append]

theorem runSiteCommand_signaled_of_lookup (d cmd : String) (k : Bool)
    (s : SupState) (p : Nat) (h : lookupProc d s.table = some p) :
    (runSiteCommand d cmd k s).signaled = p :: s.signaled := by
  simp [runSiteCommand, stopSiteCommand, h]

/-- C1 counterexample: a custom-command start followed by a standard
`startApp` start leaves exactly one tracked process, but the superseded
pid 0 never received a termination signal — `startApp` overwrites the
table entry without stopping the previous process, so the claimed
invariant fails on this two-start sequence. -/
theorem startApp_supersede_unsignaled :
    startSeqClaim "a.test" [StartOp.custom "node server.js" true, StartOp.std]
      = false := by decide

/-- C1 (amended): after any nonempty sequence of starts for a domain,
exactly one process is tracked for it, at most one entry is ever tracked
at a time, and every custom-command start (`runSiteCommand`) signals the
previously tracked process before its replacement is launched; a standard
start (`startApp`) only replaces the tracked entry. -/
theorem start_sequence_single_tracked (domain : String) (ops : List StartOp)
    (hne : ops ≠ []) :
    countKey domain (runStartSeq domain ops initSup).table = 1 ∧
    (∀ n, countKey domain (runStartPrefix domain ops n).table ≤ 1) ∧
    (∀ i cmd killOk, ops[i]? = some (.custom cmd killOk) →
      stepStopOk domain ops i = true) := by
  refine ⟨?_, ?_, ?_⟩
  · rcases List.eq_nil_or_concat ops with h | ⟨l, b, h⟩
    · exact absurd h hne
    · subst h
      rw [List.concat_eq_append, runStartSeq_concat]
      exact applyStart_countKey _ _ _
  · intro n
    exact countKey_runStartSeq_le _ _ _ (by simp [countKey, initSup])
  · intro i cmd killOk h
    have hsucc := runStartPrefix_succ_of_get domain ops i _ h
    unfold stepStopOk
    cases hl : lookupProc domain (runStartPrefix domain ops i).table with
    | none => rfl
    | some p =>
      rw [hsucc]
      simp [applyStart,
        runSiteCommand_signaled_of_lookup _ _ _ _ _ hl]

/-- Witness for the amended C1: the specification's own scenario — two
sequential custom starts for `b.test` leave exactly one tracked process. -/
theorem start_sequence_single_tracked_witness :
    countKey "b.test"
      (runStartSeq "b.test"
        [StartOp.custom "cmd1" true, StartOp.custom "cmd2" true] initSup).table
      = 1 :=
  (start_sequence_single_tracked "b.test"
    [StartOp.custom "cmd1" true, StartOp.custom "cmd2" true] (by decide)).1

/-- C9: `stopSiteCommand` with a tracked entry signals the process group,
removes the entry whether or not the kill succeeded (a failure is only
logged), and without a tracked entry it is a no-op leaving the state
unchanged; in both cases it returns normally. -/
theorem stop_removes_entry_total (domain : String) (killOk : Bool)
    (s : SupState) :
    (∀ pid, lookupProc domain s.table = some pid →
      (stopSiteCommand domain killOk s).table = eraseProc domain s.table ∧
      lookupProc domain (stopSiteCommand domain killOk s).table = none ∧
      pid ∈ (stopSiteCommand domain killOk s).signaled ∧
      (killOk = false →
        "Failed to stop process" ∈ (stopSiteCommand domain killOk s).logs)) ∧
    (lookupProc domain s.table = none → stopSiteCommand domain killOk s = s) := by
  constructor
  · intro pid h
    refine ⟨?_, ?_, ?_, ?_⟩
    · simp [stopSiteCommand, h]
    · simp [stopSiteCommand, h, lookupProc_eraseProc]
    · simp [stopSiteCommand, h]
    · rintro rfl
      simp [stopSiteCommand, h]
  · intro h
    simp [stopSiteCommand, h]

/-- Witness for C9: stopping a tracked domain removes and signals it;
stopping an untracked domain changes nothing. -/
theorem stop_removes_entry_total_witness :
    lookupProc "a.test"
      (stopSiteCommand "a.test" true ⟨[("a.test", 5)], 6, [], []⟩).table
      = none ∧
    5 ∈ (stopSiteCommand "a.test" true ⟨[("a.test", 5)], 6, [], []⟩).signaled ∧
    stopSiteCommand "b.test" true initSup = initSup := by
  refine ⟨?_, ?_, ?_⟩
  · exact ((stop_removes_entry_total "a.test" true
      ⟨[("a.test", 5)], 6, [], []⟩).1 5 (by decide)).2.1
  · exact ((stop_removes_entry_total "a.test" true
      ⟨[("a.test", 5)], 6, [], []⟩).1 5 (by decide)).2.2.1
  · exact (stop_removes_entry_total "b.test" true initSup).2 (by decide)

/-- C10: ssl material counts as present only when certificate and key both
exist; with exactly one (or neither) of the two files, the renderer
produces the plain-HTTP output. -/
theorem tls_needs_both_files (site : Site) :
    generateNginxConfigFS site true false = generateNginxConfig site false ∧
    generateNginxConfigFS site false true = generateNginxConfig site false ∧
    generateNginxConfigFS site false false = generateNginxConfig site false ∧
    generateNginxConfigFS site true true = generateNginxConfig site true := by
  exact ⟨rfl, rfl, rfl, rfl⟩

/-! Orchestrator lemmas. -/

theorem newAfterDest_resp_cases (req : NewReq) (env : NewEnv)
    (acts1 : List Act) :
    (newAfterDest req env acts1).resp = .cloneFailed ∨
    (newAfterDest req env acts1).resp = .created ∨
    (newAfterDest req env acts1).resp =
      .enableFailed ("Failed to enable site: " ++ env.enableErrMsg ++ ". " ++
        enableHint req.domain) := by
  cases hc : env.cloneOk <;> cases he : env.enableOk <;>
    simp [newAfterDest, hc, he]

theorem newAfterDest_enableFailed (req : NewReq) (env : NewEnv)
    (acts1 : List Act) (msg : String)
    (h : (newAfterDest req env acts1).resp = .enableFailed msg) :
    msg = "Failed to enable site: " ++ env.enableErrMsg ++ ". " ++
      enableHint req.domain ∧
    (newAfterDest req env acts1).savedSites = some (env.sites ++ [mkSite req]) ∧
    (newAfterDest req env acts1).writtenConfig = some (mkSite req) ∧
    (newAfterDest req env acts1).started = newStartKind req env ∧
    Act.saveSitesA ∈ (newAfterDest req env acts1).acts ∧
    Act.writeConfigA ∈ (newAfterDest req env acts1).acts ∧
    Act.enableA ∈ (newAfterDest req env acts1).acts := by
  cases hc : env.cloneOk <;> cases he : env.enableOk <;>
    simp [newAfterDest, hc, he] at h ⊢
  exact h.symm

/-- Every run of the Create handler lands in one of these shapes. -/
theorem newHandler_cases (req : NewReq) (env : NewEnv) :
    newHandler req env = ⟨.invalidDomain, [], none, none, none⟩ ∨
    newHandler req env = ⟨.duplicateDomain, [], none, none, none⟩ ∨
    newHandler req env = ⟨.permissionError, [], none, none, none⟩ ∨
    (∃ acts0, newHandler req env = ⟨.accessFailed, acts0, none, none, none⟩) ∨
    (env.rootExists = true ∧
      ((env.parentExists = true ∧
          newHandler req env = ⟨.destNotEmpty, [], none, none, none⟩) ∨
       (env.parentExists = false ∧
          newHandler req env =
            ⟨.destNotEmpty, [Act.mkdirParentA], none, none, none⟩))) ∨
    (∃ acts1, newHandler req env = newAfterDest req env acts1) := by
  by_cases hv : isValidDomain req.domain
  · by_cases hdup : (env.sites.find? (fun s => s.domain == req.domain)).isSome
    · exact Or.inr (Or.inl (by simp [newHandler, hv, hdup]))
    · cases hpe : env.parentExists
      · cases hmk : env.mkdirOk
        · exact Or.inr (Or.inr (Or.inl (by simp [newHandler, hv, hdup, hpe, hmk])))
        · cases hre : env.rootExists
          · exact Or.inr (Or.inr (Or.inr (Or.inr (Or.inr
              ⟨[Act.mkdirParentA],
                by simp [newHandler, hv, hdup, hpe, hmk, hre]⟩))))
          · cases hrr : env.rootReadOk
            · exact Or.inr (Or.inr (Or.inr (Or.inl
                ⟨[Act.mkdirParentA],
                  by simp [newHandler, hv, hdup, hpe, hmk, hre, hrr]⟩)))
            · cases hrn : env.rootNonEmpty
              · exact Or.inr (Or.inr (Or.inr (Or.inr (Or.inr
                  ⟨[Act.mkdirParentA],
                    by simp [newHandler, hv, hdup, hpe, hmk, hre, hrr, hrn]⟩))))
              · cases how : req.overwrite
                · exact Or.inr (Or.inr (Or.inr (Or.inr (Or.inl
                    ⟨rfl, Or.inr ⟨rfl,
                      by simp [newHandler, hv, hdup, hpe, hmk, hre, hrr, hrn, how]⟩⟩))))
                · exact Or.inr (Or.inr (Or.inr (Or.inr (Or.inr
                    ⟨[Act.mkdirParentA, Act.rmRootA],
                      by simp [newHandler, hv, hdup, hpe, hmk, hre, hrr, hrn, how]⟩))))
      · cases hpw : env.parentWritable
        · exact Or.inr (Or.inr (Or.inl (by simp [newHandler, hv, hdup, hpe, hpw])))
        · cases hre : env.rootExists
          · exact Or.inr (Or.inr (Or.inr (Or.inr (Or.inr
              ⟨[], by simp [newHandler, hv, hdup, hpe, hpw, hre]⟩))))
          · cases hrr : env.rootReadOk
            · exact Or.inr (Or.inr (Or.inr (Or.inl
                ⟨[], by simp [newHandler, hv, hdup, hpe, hpw, hre, hrr]⟩)))
            · cases hrn : env.rootNonEmpty
              · exact Or.inr (Or.inr (Or.inr (Or.inr (Or.inr
                  ⟨[], by simp [newHandler, hv, hdup, hpe, hpw, hre, hrr, hrn]⟩))))
              · cases how : req.overwrite
                · exact Or.inr (Or.inr (Or.inr (Or.inr (Or.inl
                    ⟨rfl, Or.inl ⟨rfl,
                      by simp [newHandler, hv, hdup, hpe, hpw, hre, hrr, hrn, how]⟩⟩))))
                · exact Or.inr (Or.inr (Or.inr (Or.inr (Or.inr
                    ⟨[Act.rmRootA],
                      by simp [newHandler, hv, hdup, hpe, hpw, hre, hrr, hrn, how]⟩))))
  · exact Or.inl (by simp [newHandler, hv])

/-- C6: when Create rejects with `InvalidDomain`, `DuplicateDomain` or
`DestinationNotEmpty`, nothing has been mutated: the trace is empty (in
particular the root's parent directory was not created and the root tree
was not touched), no site record was persisted, no config written, no
process started. The filesystem hypothesis says only that an existing
root directory sits inside an existing parent directory. -/
theorem create_validation_premutation (req : NewReq) (env : NewEnv)
    (hfs : env.rootExists = true → env.parentExists = true)
    (hresp : (newHandler req env).resp = .invalidDomain ∨
             (newHandler req env).resp = .duplicateDomain ∨
             (newHandler req env).resp = .destNotEmpty) :
    (newHandler req env).acts = [] ∧
    (newHandler req env).savedSites = none ∧
    (newHandler req env).writtenConfig = none ∧
    (newHandler req env).started = none := by
  rcases newHandler_cases req env with
    hc | hc | hc | ⟨acts0, hc⟩ | ⟨hre, h5⟩ | ⟨acts1, hc⟩
  · rw [hc]
    exact ⟨rfl, rfl, rfl, rfl⟩
  · rw [hc]
    exact ⟨rfl, rfl, rfl, rfl⟩
  · rw [hc] at hresp
    rcases hresp with h1 | h1 | h1 <;> simp at h1
  · rw [hc] at hresp
    rcases hresp with h1 | h1 | h1 <;> simp at h1
  · rcases h5 with ⟨hpe, hc⟩ | ⟨hpe, hc⟩
    · rw [hc]
      exact ⟨rfl, rfl, rfl, rfl⟩
    · exact absurd (hfs hre) (by simp [hpe])
  · rw [hc] at hresp
    rcases newAfterDest_resp_cases req env acts1 with hr | hr | hr <;>
      rcases hresp with h1 | h1 | h1 <;> rw [hr] at h1 <;> simp at h1

/-- Witness for C6: a Create request against an existing non-empty root
without the overwrite flag is rejected as destination-not-empty with an
empty mutation trace. -/
theorem create_validation_premutation_witness :
    (newHandler ⟨"a.test", "https://example.com/r.git", "/var/www/a",
        some 3001, none, false⟩
      ⟨[], true, true, true, true, true, true, true, false, false, none,
        true, ""⟩).acts = [] :=
  (create_validation_premutation
    ⟨"a.test", "https://example.com/r.git", "/var/www/a", some 3001, none,
      false⟩
    ⟨[], true, true, true, true, true, true, true, false, false, none,
      true, ""⟩
    (by decide) (Or.inr (Or.inr (by decide)))).1

/-- C8: a Create request that reaches the reload step and sees the enable
gateway fail returns the failure with the manual-remediation hint, and the
already committed state survives: the persisted site list still carries
the new record, the rendered config stays written, and the started process
stays tracked — nothing is rolled back. -/
theorem reload_failure_preserves_commit (req : NewReq) (env : NewEnv)
    (msg : String)
    (h : (newHandler req env).resp = .enableFailed msg) :
    msg = "Failed to enable site: " ++ env.enableErrMsg ++ ". " ++
      enableHint req.domain ∧
    (newHandler req env).savedSites = some (env.sites ++ [mkSite req]) ∧
    (newHandler req env).writtenConfig = some (mkSite req) ∧
    (newHandler req env).started = newStartKind req env ∧
    Act.saveSitesA ∈ (newHandler req env).acts ∧
    Act.writeConfigA ∈ (newHandler req env).acts ∧
    Act.enableA ∈ (newHandler req env).acts := by
  rcases newHandler_cases req env with
    hc | hc | hc | ⟨acts0, hc⟩ | ⟨hre, h5⟩ | ⟨acts1, hc⟩
  · rw [hc] at h
    simp at h
  · rw [hc] at h
    simp at h
  · rw [hc] at h
    simp at h
  · rw [hc] at h
    simp at h
  · rcases h5 with ⟨hpe, hc⟩ | ⟨hpe, hc⟩ <;> rw [hc] at h <;> simp at h
  · rw [hc] at h ⊢
    exact newAfterDest_enableFailed req env acts1 msg h

/-- Witness for C8: a concrete Create whose enable step fails keeps the
saved record and reports the remediation hint. -/
theorem reload_failure_preserves_commit_witness :
    (newHandler ⟨"a.test", "https://example.com/r.git", "/var/www/a",
        some 3001, none, false⟩
      ⟨[], true, true, true, false, true, false, true, true, false, none,
        false, "nginx: boom"⟩).savedSites =
      some ([] ++ [mkSite ⟨"a.test", "https://example.com/r.git",
        "/var/www/a", some 3001, none, false⟩]) :=
  (reload_failure_preserves_commit
    ⟨"a.test", "https://example.com/r.git", "/var/www/a", some 3001, none,
      false⟩
    ⟨[], true, true, true, false, true, false, true, true, false, none,
      false, "nginx: boom"⟩
    ("Failed to enable site: nginx: boom. " ++ enableHint "a.test")
    (by decide)).2.1

/-- C7: a domain carrying any character outside `[A-Za-z0-9.-]` is
rejected with the invalid-domain error by every entry point, before any
filesystem path is built from it or any shell command embedding it runs
(every trace is empty). -/
theorem domain_validation_all_endpoints (domain : String)
    (hbad : ∃ c ∈ domain.data, isDomainChar c = false) :
    ∀ (sites : List Site) (cmd : String) (req : NewReq) (env : NewEnv),
      cmd ≠ "" → req.domain = domain →
      (newHandler req env = ⟨.invalidDomain, [], none, none, none⟩ ∧
       updateHandler domain sites = (.invalidDomain, []) ∧
       deleteHandler domain sites = (.invalidDomain, []) ∧
       backupHandler domain sites = (.invalidDomain, []) ∧
       runHandler domain cmd sites = (.invalidDomain, []) ∧
       stopHandler domain = (.invalidDomain, []) ∧
       fixHandler domain = (.invalidDomain, []) ∧
       nginxGetHandler domain = (.invalidDomain, []) ∧
       nginxPostHandler domain sites = (.invalidDomain, []) ∧
       sslGetHandler domain = (.invalidDomain, []) ∧
       sslPostHandler domain = (.invalidDomain, []) ∧
       sslTestHandler domain = (.invalidDomain, []) ∧
       configGetHandler domain = (.invalidDomain, []) ∧
       testGetHandler domain = (.invalidDomain, [])) := by
  intro sites cmd req env hcmd hreq
  have hall : domain.data.all isDomainChar = false := by
    obtain ⟨c, hcmem, hcbad⟩ := hbad
    rcases Bool.eq_false_or_eq_true (domain.data.all isDomainChar) with h | h
    · rw [List.all_eq_true] at h
      exact absurd (h c hcmem) (by simp [hcbad])
    · exact h
  have hval : isValidDomain domain = false := by
    simp [isValidDomain, hall]
  have hne : (domain == "") = false := by
    obtain ⟨c, hcmem, _⟩ := hbad
    simp only [beq_eq_false_iff_ne, ne_eq]
    rintro rfl
    simp at hcmem
  have hne2 : (domain != "") = true := by
    simp [bne, hne]
  have hcm : (cmd == "") = false := by
    simp only [beq_eq_false_iff_ne, ne_eq]
    exact hcmd
  refine ⟨?_, ?_, ?_, ?_, ?_, ?_, ?_, ?_, ?_, ?_, ?_, ?_, ?_, ?_⟩
  · simp [newHandler, hreq, hval]
  · simp [updateHandler, hval]
  · simp [deleteHandler, hval]
  · simp [backupHandler, hval]
  · simp [runHandler, hne, hcm, hval]
  · simp [stopHandler, hne2, hval]
  · simp [fixHandler, hne, hval]
  · simp [nginxGetHandler, hne2, hval]
  · simp [nginxPostHandler, hval]
  · simp [sslGetHandler, hval]
  · simp [sslPostHandler, hval]
  · simp [sslTestHandler, hval]
  · simp [configGetHandler, hval]
  · simp [testGetHandler, hval]

/-- Witness for C7: the shell-metacharacter domain `bad;dom` is rejected
by the fix endpoint (and all others) with an empty trace. -/
theorem domain_validation_all_endpoints_witness :
    fixHandler "bad;dom" = (.invalidDomain, []) :=
  (domain_validation_all_endpoints "bad;dom" (by decide) [] "x"
    ⟨"bad;dom", "", "", none, none, false⟩
    ⟨[], true, true, true, true, true, true, true, false, false, none,
      true, ""⟩
    (by decide) rfl).2.2.2.2.2.2.1

end BlockHead
